import Mathlib

/-!
Verification of the mini-aqm orchestration core (src/main.py) against its
design specification.

The embedding is shallow:
* `get_breakpoint` is translated directly from `src/main.py` lines 14-27.
  Python floats are modelled by `ℚ`; every breakpoint constant used by the
  code (15.5, 40.5, 65.5, 150, 250) is exactly representable in binary64,
  and the comparisons are pure order comparisons, so the rational model has
  the same branch behaviour as the float code on every input considered.
* The body of `main` (src/main.py lines 101-166) is modelled as pure
  functions from its inputs (the CLI options, the discovery results, and
  the per-iteration device read results) to the ordered list of observable
  events it performs (console output, sink opening, telemetry emission,
  watchdog signals, device reads).
* The collaborating modules `pms7003` and `influxdb_logger` are repository
  code that is not under src/; the record shapes they provide
  (`PMSData`, `SearchResult`) and the sink-announcement constant are
  modelled from the spec, as marked in their doc comments.
-/

/-! ## Colorama constants (ANSI escape strings used by src/main.py) -/

namespace Fore
def GREEN : String := "\x1b[32m"
def YELLOW : String := "\x1b[33m"
def RED : String := "\x1b[31m"
def MAGENTA : String := "\x1b[35m"
def BLUE : String := "\x1b[34m"
end Fore

namespace Style
def BRIGHT : String := "\x1b[1m"
def RESET_ALL : String := "\x1b[0m"
end Style

/-! ## AqiClassifier: get_breakpoint (src/main.py lines 14-27) -/

/-- Translation of `get_breakpoint` (src/main.py lines 14-27): the colorized
breakpoint label for a pm2.5 value.  Returns the label string and the color
style string, exactly as the Python function does. -/
def get_breakpoint (pm25 : ℚ) : String × String :=
  if pm25 < 15.5 then
    ("Good", Fore.GREEN)
  else if pm25 < 40.5 then
    ("Moderate", Fore.YELLOW)
  else if pm25 < 65.5 then
    ("Unhealthy for Certain Groups", Fore.YELLOW ++ Style.BRIGHT)
  else if pm25 < 150 then
    ("Unhealthy", Fore.RED)
  else if pm25 < 250 then
    ("Very Unhealthy", Fore.RED ++ Style.BRIGHT)
  else
    ("Hazardous", Fore.MAGENTA)

/-- Severity tier ordinal (0-5) of each label returned by `get_breakpoint`,
in the order the spec's breakpoint table lists the categories.  Strings that
`get_breakpoint` never returns are mapped to 6. -/
def tierOf : String → ℕ
  | "Good" => 0
  | "Moderate" => 1
  | "Unhealthy for Certain Groups" => 2
  | "Unhealthy" => 3
  | "Very Unhealthy" => 4
  | "Hazardous" => 5
  | _ => 6

/-- The severity tier the code assigns to a concentration. -/
def severity (x : ℚ) : ℕ := tierOf (get_breakpoint x).1

/-- The spec's breakpoint table (spec §4.2), written from the spec's words:
half-open intervals with the upper bound exclusive, tiers 0-5. -/
def specTier (x : ℚ) : ℕ :=
  if 0 ≤ x ∧ x < 15.5 then 0
  else if 15.5 ≤ x ∧ x < 40.5 then 1
  else if 40.5 ≤ x ∧ x < 65.5 then 2
  else if 65.5 ≤ x ∧ x < 150 then 3
  else if 150 ≤ x ∧ x < 250 then 4
  else 5

/-! ## Data model: Measurement and discovery results

`PMSData` and `SearchResult` are provided by the `pms7003` module, which is
repository code not under src/. -/

/-- Modelled from the spec: the `pms7003` module's `PMSData` named tuple is
not under src/; spec §3 (Measurement) gives its fields and order: header
bytes, frame length, six PM concentration fields (CF=1 and atmospheric for
1.0/2.5/10.0 µm), six particle-count fields, reserved field, checksum.  The
field names are those `src/main.py` itself uses (`print_debug`,
`data._asdict()`).  Values are the sensor's unsigned integers. -/
structure PMSData where
  header_high : ℕ
  header_low : ℕ
  frame_length : ℕ
  pm1_0_cf1 : ℕ
  pm1_0_atm : ℕ
  pm2_5_cf1 : ℕ
  pm2_5_atm : ℕ
  pm10_0_cf1 : ℕ
  pm10_0_atm : ℕ
  count_0_3 : ℕ
  count_0_5 : ℕ
  count_1_0 : ℕ
  count_2_5 : ℕ
  count_5_0 : ℕ
  count_10_0 : ℕ
  reserved : ℕ
  checksum : ℕ
deriving DecidableEq, Repr

/-- `PMSData._asdict()`: the named tuple as an ordered association list of
(field name, value), in declaration order. -/
def PMSData.asdict (d : PMSData) : List (String × ℕ) :=
  [("header_high", d.header_high), ("header_low", d.header_low),
   ("frame_length", d.frame_length),
   ("pm1_0_cf1", d.pm1_0_cf1), ("pm1_0_atm", d.pm1_0_atm),
   ("pm2_5_cf1", d.pm2_5_cf1), ("pm2_5_atm", d.pm2_5_atm),
   ("pm10_0_cf1", d.pm10_0_cf1), ("pm10_0_atm", d.pm10_0_atm),
   ("count_0_3", d.count_0_3), ("count_0_5", d.count_0_5),
   ("count_1_0", d.count_1_0), ("count_2_5", d.count_2_5),
   ("count_5_0", d.count_5_0), ("count_10_0", d.count_10_0),
   ("reserved", d.reserved), ("checksum", d.checksum)]

/-- Python's `str.startswith`, modelled on the character lists. -/
def pyStartswith (s pre : String) : Bool := pre.data.isPrefixOf s.data

/-- The fields dictionary built at src/main.py lines 160-162:
`{k: v for k, v in data._asdict().items() if k.startswith("pm")}`. -/
def pmFields (d : PMSData) : List (String × ℕ) :=
  d.asdict.filter (fun kv => pyStartswith kv.1 "pm")

/-- A usable PMS7003 device handle: src/main.py only uses its `id` attribute
and its `read()` method (reads are modelled as inputs to the loop). -/
structure Device where
  id : String
deriving DecidableEq, Repr

/-- Modelled from the spec: the `pms7003` module's `SearchResult` is not
under src/; spec §3 (DiscoveryResult) gives its shape: description, port
path, device-handle-or-absent, error-or-absent.  These are exactly the
attributes `src/main.py` reads (`p.desc`, `p.port`, `p.dev`, `p.error`). -/
structure SearchResult where
  desc : String
  port : String
  dev : Option Device
  error : Option String
deriving DecidableEq, Repr

/-- Python's rendering of an optional value inside an f-string:
`None` when absent, the value itself otherwise. -/
def pyOptStr : Option String → String
  | none => "None"
  | some s => s

/-! ## Observable events of `main` (src/main.py lines 101-166) -/

/-- One observable action of `main`, in program order:
console output (`click.echo`, with its error-stream flag), opening the
telemetry sink (`InfluxdbLogger(log_path)`), watchdog signals (`wd.ready()`,
`wd.ping()`), a device read (`dev.read()`), the debug dump (`print_debug`),
a telemetry record (`logger.emit`) and the human summary (`print_pm`). -/
inductive Event where
  | echo (msg : String) (err : Bool)
  | openSink (path : String)
  | ready
  | ping
  | read (devId : String)
  | printDebug (data : PMSData)
  | emit (fields : List (String × ℕ)) (tags : List (String × String))
  | printPM (data : PMSData)
deriving DecidableEq, Repr

/-- Modelled from the spec: `InfluxdbLogger.MEASUREMENT` (the influxdb
measurement name announced at startup) lives in `influxdb_logger`, which is
not under src/ and whose value the spec does not fix; no theorem below
depends on this value. -/
def InfluxdbLogger.MEASUREMENT : String := "measurement"

/-- The red "no serial devices found" message (src/main.py lines 109-114). -/
def noSerialMsg : String :=
  Fore.RED ++ "no serial devices found. is your device plugged in? did you install drivers?"
    ++ Style.RESET_ALL

/-- The yellow per-port discovery warning (src/main.py lines 119-124). -/
def warnMsg (p : SearchResult) : String :=
  Fore.YELLOW ++ "error on " ++ p.desc ++ " " ++ p.port ++ ": " ++ pyOptStr p.error
    ++ Style.RESET_ALL

/-- The red "no PMS7003 devices found" message (src/main.py lines 128-133). -/
def noDevsMsg : String :=
  Fore.RED ++ "no PMS7003 devices found; resolve any errors printed above and try again"
    ++ Style.RESET_ALL

/-- The blue sink announcement (src/main.py lines 137-141). -/
def announceMsg (path : String) : String :=
  Fore.BLUE ++ "writing influxdb measurement " ++ InfluxdbLogger.MEASUREMENT
    ++ " to " ++ path ++ Style.RESET_ALL

/-- The green per-device banner (src/main.py lines 143-146). -/
def beginMsg (devId : String) : String :=
  Fore.GREEN ++ "beginning to read data from " ++ devId ++ "..." ++ Style.RESET_ALL

/-- How the startup phase of `main` ends: an early return at line 115
(no search results at all), an early return at line 134 (results but no
usable device), or entry into the polling loop with the usable devices. -/
inductive StartOutcome where
  | noSerial
  | noDevices
  | running (devs : List Device)
deriving DecidableEq, Repr

/-- Startup phase of `main` (src/main.py lines 107-150), translated
statement by statement: the observable events it performs in order, and how
it ends.  `possible` is the sequence returned by `PMS7003.find_devices`;
each `SearchResult` object is truthy in Python, so `not any(possible)`
holds exactly when the list is empty, and likewise for the device list. -/
def main_startup (logPath : String) (possible : List SearchResult) :
    List Event × StartOutcome :=
  if possible.isEmpty then
    ([Event.echo noSerialMsg true], StartOutcome.noSerial)
  else
    let warnings := (possible.filter (fun p => p.dev.isNone)).map
      (fun p => Event.echo (warnMsg p) true)
    let devs := possible.filterMap (fun p => p.dev)
    if devs.isEmpty then
      (warnings ++ [Event.echo noDevsMsg true], StartOutcome.noDevices)
    else
      (warnings
        ++ [Event.openSink logPath, Event.echo (announceMsg logPath) false]
        ++ devs.map (fun d => Event.echo (beginMsg d.id) false)
        ++ [Event.ready],
       StartOutcome.running devs)

/-- The outcome of one `dev.read()` call: a measurement, or a raised
exception (spec §7 ReadError; src/main.py installs no handler, so an
exception propagates out of the loop body). -/
inductive ReadResult where
  | ok (data : PMSData)
  | error (msg : String)
deriving DecidableEq, Repr

/-- The per-device body of the polling loop (src/main.py lines 154-166) for
one device whose read returned `data`: debug dump in debug mode, otherwise
the telemetry record, followed by the human summary unless log-only. -/
def deviceEvents (debug logOnly : Bool) (dev : Device) (data : PMSData) :
    List Event :=
  if debug then
    [Event.printDebug data]
  else
    Event.emit (pmFields data) [("type", "PMS7003"), ("id", dev.id)] ::
      (if logOnly then [] else [Event.printPM data])

/-- The `for dev in devs` body of one loop iteration (src/main.py lines
154-166): devices are read strictly sequentially; a read that raises stops
the iteration (and the whole loop) right there.  Returns the events
performed and whether the iteration completed without a raised read. -/
def readDevices (debug logOnly : Bool) :
    List (Device × ReadResult) → List Event × Bool
  | [] => ([], true)
  | (dev, ReadResult.error _) :: _ => ([Event.read dev.id], false)
  | (dev, ReadResult.ok data) :: rest =>
      let r := readDevices debug logOnly rest
      (Event.read dev.id :: (deviceEvents debug logOnly dev data ++ r.1), r.2)

/-- One iteration of the `while True` polling loop (src/main.py lines
152-166): `wd.ping()` first, then the sequential device reads.  `reads`
pairs each device (in discovery order) with what its `read()` call does
this iteration. -/
def loop_iter (debug logOnly : Bool) (reads : List (Device × ReadResult)) :
    List Event × Bool :=
  let r := readDevices debug logOnly reads
  (Event.ping :: r.1, r.2)

/-- Lifts a list of successful measurements to read results. -/
def oks (devReads : List (Device × PMSData)) : List (Device × ReadResult) :=
  devReads.map (fun p => (p.1, ReadResult.ok p.2))

/-- Is this event a telemetry record (`logger.emit`)? -/
def isEmit : Event → Bool
  | Event.emit _ _ => true
  | _ => false

/-- The telemetry record src/main.py lines 159-164 dispatches for a device
and the measurement it read. -/
def emitOf (p : Device × PMSData) : Event :=
  Event.emit (pmFields p.2) [("type", "PMS7003"), ("id", p.1.id)]

/-- A sample usable device, as discovery would produce for /dev/ttyUSB0. -/
def sampleDev : Device := ⟨"PMS7003 /dev/ttyUSB0"⟩

/-- A sample measurement (all sensor fields zero). -/
def sampleData : PMSData := ⟨0, 0, 0, 0, 0, 0, 0, 0, 0, 0, 0, 0, 0, 0, 0, 0, 0⟩

/-- A sample failed discovery result. -/
def sampleFail : SearchResult :=
  ⟨"USB Serial", "/dev/ttyUSB0", none, some "Permission denied"⟩

/-- A sample successful discovery result carrying a usable device. -/
def sampleOk : SearchResult := ⟨"USB Serial", "/dev/ttyUSB0", some sampleDev, none⟩

/-! ## Lemmas -/

lemma severity_eq_ite (x : ℚ) :
    severity x =
      if x < 15.5 then 0
      else if x < 40.5 then 1
      else if x < 65.5 then 2
      else if x < 150 then 3
      else if x < 250 then 4
      else 5 := by
  unfold severity get_breakpoint
  split_ifs <;> rfl

lemma severity_le_five (x : ℚ) : severity x ≤ 5 := by
  rw [severity_eq_ite]
  split_ifs <;> omega

lemma specTier_eq_severity (x : ℚ) (hx : 0 ≤ x) : specTier x = severity x := by
  rw [severity_eq_ite]
  unfold specTier
  rcases lt_or_le x 15.5 with h1 | h1
  · simp [hx, h1]
  · rcases lt_or_le x 40.5 with h2 | h2
    · simp [not_lt.mpr h1, h1, h2]
    · rcases lt_or_le x 65.5 with h3 | h3
      · have h1' : ¬ x < 15.5 := not_lt.mpr ((by norm_num : (15.5:ℚ) ≤ 40.5).trans h2)
        simp [h1', not_lt.mpr h2, h2, h3]
      · rcases lt_or_le x 150 with h4 | h4
        · have h1' : ¬ x < 15.5 := not_lt.mpr ((by norm_num : (15.5:ℚ) ≤ 65.5).trans h3)
          have h2' : ¬ x < 40.5 := not_lt.mpr ((by norm_num : (40.5:ℚ) ≤ 65.5).trans h3)
          simp [h1', h2', not_lt.mpr h3, h3, h4]
        · rcases lt_or_le x 250 with h5 | h5
          · have h1' : ¬ x < 15.5 := not_lt.mpr ((by norm_num : (15.5:ℚ) ≤ 150).trans h4)
            have h2' : ¬ x < 40.5 := not_lt.mpr ((by norm_num : (40.5:ℚ) ≤ 150).trans h4)
            have h3' : ¬ x < 65.5 := not_lt.mpr ((by norm_num : (65.5:ℚ) ≤ 150).trans h4)
            simp [h1', h2', h3', not_lt.mpr h4, h4, h5]
          · have h1' : ¬ x < 15.5 := not_lt.mpr ((by norm_num : (15.5:ℚ) ≤ 250).trans h5)
            have h2' : ¬ x < 40.5 := not_lt.mpr ((by norm_num : (40.5:ℚ) ≤ 250).trans h5)
            have h3' : ¬ x < 65.5 := not_lt.mpr ((by norm_num : (65.5:ℚ) ≤ 250).trans h5)
            have h4' : ¬ x < 150 := not_lt.mpr ((by norm_num : (150:ℚ) ≤ 250).trans h5)
            simp [h1', h2', h3', h4', not_lt.mpr h5]

/-- C1: for every non-negative concentration, `get_breakpoint` returns the
category of the spec's breakpoint table (upper bounds exclusive) and never
fails; in particular the boundary table classify(15.4)=Good,
classify(15.5)=Moderate, classify(40.5)=UnhealthyForSensitiveGroups (tier 2,
code label "Unhealthy for Certain Groups"), classify(65.5)=Unhealthy,
classify(150)=VeryUnhealthy, classify(250)=Hazardous holds. -/
theorem get_breakpoint_matches_spec_table :
    (∀ x : ℚ, 0 ≤ x → severity x = specTier x ∧ severity x ≤ 5)
    ∧ (get_breakpoint 15.4).1 = "Good" ∧ severity 15.4 = 0
    ∧ (get_breakpoint 15.5).1 = "Moderate" ∧ severity 15.5 = 1
    ∧ (get_breakpoint 40.5).1 = "Unhealthy for Certain Groups" ∧ severity 40.5 = 2
    ∧ (get_breakpoint 65.5).1 = "Unhealthy" ∧ severity 65.5 = 3
    ∧ (get_breakpoint 150).1 = "Very Unhealthy" ∧ severity 150 = 4
    ∧ (get_breakpoint 250).1 = "Hazardous" ∧ severity 250 = 5 := by
  refine ⟨fun x hx => ⟨(specTier_eq_severity x hx).symm, severity_le_five x⟩, ?_⟩
  refine ⟨?_, ?_, ?_, ?_, ?_, ?_, ?_, ?_, ?_, ?_, ?_, ?_⟩ <;>
    norm_num [get_breakpoint, severity, tierOf]

/-- C1 witness: the refinement applied at the concrete input 0. -/
theorem get_breakpoint_matches_spec_table_witness :
    severity 0 = specTier 0 ∧ severity 0 ≤ 5 :=
  get_breakpoint_matches_spec_table.1 0 (le_refl 0)

/-- C5: the severity tier assigned by `get_breakpoint` is a total monotonic
function of the concentration: x ≤ y implies tier x ≤ tier y. -/
theorem severity_monotone (x y : ℚ) (h : x ≤ y) : severity x ≤ severity y := by
  rw [severity_eq_ite, severity_eq_ite]
  split_ifs <;> first | omega | (exfalso; linarith)

/-- C5 witness: monotonicity applied at the concrete pair (0, 1). -/
theorem severity_monotone_witness : severity 0 ≤ severity 1 :=
  severity_monotone 0 1 zero_le_one

/-- C9: `get_breakpoint` is total on all rational inputs, negative ones
included, and every input strictly below 15.5 (so every negative
concentration) yields the Good category with the green style; no input is
rejected. -/
theorem get_breakpoint_total_good_below :
    (∀ x : ℚ, severity x ≤ 5)
    ∧ ∀ x : ℚ, x < 15.5 → get_breakpoint x = ("Good", Fore.GREEN) := by
  refine ⟨severity_le_five, fun x hx => ?_⟩
  unfold get_breakpoint
  rw [if_pos hx]

/-- C9 witness: the Good branch applied at the concrete negative input -3. -/
theorem get_breakpoint_total_good_below_witness :
    get_breakpoint (-3) = ("Good", Fore.GREEN) :=
  get_breakpoint_total_good_below.2 (-3) (by norm_num)

lemma ping_not_mem_deviceEvents (debug logOnly : Bool) (dev : Device)
    (data : PMSData) : Event.ping ∉ deviceEvents debug logOnly dev data := by
  cases debug <;> cases logOnly <;> simp [deviceEvents]

lemma ping_not_mem_readDevices (debug logOnly : Bool)
    (reads : List (Device × ReadResult)) :
    Event.ping ∉ (readDevices debug logOnly reads).1 := by
  induction reads with
  | nil => simp [readDevices]
  | cons pr rest ih =>
    obtain ⟨dev, r⟩ := pr
    cases r with
    | error m => simp [readDevices]
    | ok data =>
      simp only [readDevices, List.mem_cons, List.mem_append]
      push_neg
      exact ⟨by simp, ping_not_mem_deviceEvents debug logOnly dev data, ih⟩

/-- C2: every iteration of the polling loop performs its `wd.ping()` first,
before any device read, and no other ping occurs in the iteration — so the
iteration's trace is `ping` followed by a ping-free remainder, whatever the
modes are and however the device reads turn out (including raised reads). -/
theorem ping_first_and_once_per_iteration (debug logOnly : Bool)
    (reads : List (Device × ReadResult)) :
    (loop_iter debug logOnly reads).1
        = Event.ping :: (readDevices debug logOnly reads).1
    ∧ Event.ping ∉ (readDevices debug logOnly reads).1 :=
  ⟨rfl, ping_not_mem_readDevices debug logOnly reads⟩

lemma filter_isEmit_readDevices (logOnly : Bool)
    (devReads : List (Device × PMSData)) :
    ((readDevices false logOnly (oks devReads)).1.filter isEmit)
      = devReads.map emitOf := by
  induction devReads with
  | nil => rfl
  | cons p rest ih =>
    obtain ⟨dev, data⟩ := p
    cases logOnly <;>
      simp [oks, readDevices, deviceEvents, isEmit, emitOf,
        List.filter_append, ih] <;>
      simpa [oks] using ih

/-- C3: in normal (non-debug) mode, one loop iteration dispatches exactly
one telemetry record per live device, in device order: the emit events of
the trace are exactly `devReads.map emitOf`; each record's field keys are
exactly the six PM-prefixed measurement attributes and its tags are the
fixed type label and the device's id, for every measurement value. -/
theorem normal_mode_one_record_per_device :
    (∀ (logOnly : Bool) (devReads : List (Device × PMSData)),
      ((loop_iter false logOnly (oks devReads)).1.filter isEmit)
        = devReads.map emitOf)
    ∧ (∀ d : PMSData, (pmFields d).map Prod.fst =
        ["pm1_0_cf1", "pm1_0_atm", "pm2_5_cf1", "pm2_5_atm",
         "pm10_0_cf1", "pm10_0_atm"])
    ∧ (∀ p : Device × PMSData, emitOf p =
        Event.emit (pmFields p.2) [("type", "PMS7003"), ("id", p.1.id)]) := by
  refine ⟨?_, fun d => rfl, fun p => rfl⟩
  intro logOnly devReads
  show (Event.ping :: (readDevices false logOnly (oks devReads)).1).filter isEmit = _
  rw [List.filter_cons]
  simpa [isEmit] using filter_isEmit_readDevices logOnly devReads

lemma emit_not_mem_readDevices_debug (logOnly : Bool)
    (fields : List (String × ℕ)) (tags : List (String × String))
    (reads : List (Device × ReadResult)) :
    Event.emit fields tags ∉ (readDevices true logOnly reads).1 := by
  induction reads with
  | nil => simp [readDevices]
  | cons pr rest ih =>
    obtain ⟨dev, r⟩ := pr
    cases r with
    | error m => simp [readDevices]
    | ok data =>
      simp only [readDevices, deviceEvents, List.mem_cons, List.mem_append]
      push_neg
      exact ⟨by simp, by simp, ih⟩

lemma printPM_not_mem_readDevices_debug (logOnly : Bool) (data : PMSData)
    (reads : List (Device × ReadResult)) :
    Event.printPM data ∉ (readDevices true logOnly reads).1 := by
  induction reads with
  | nil => simp [readDevices]
  | cons pr rest ih =>
    obtain ⟨dev, r⟩ := pr
    cases r with
    | error m => simp [readDevices]
    | ok d =>
      simp only [readDevices, deviceEvents, List.mem_cons, List.mem_append]
      push_neg
      exact ⟨by simp, by simp, ih⟩

lemma printDebug_mem_readDevices_debug (logOnly : Bool)
    (devReads : List (Device × PMSData)) (p : Device × PMSData)
    (hp : p ∈ devReads) :
    Event.printDebug p.2 ∈ (readDevices true logOnly (oks devReads)).1 := by
  induction devReads with
  | nil => cases hp
  | cons q rest ih =>
    obtain ⟨dev, data⟩ := q
    rcases List.mem_cons.mp hp with h | h
    · subst h
      simp [oks, readDevices, deviceEvents]
    · simp only [oks, List.map_cons, readDevices, deviceEvents,
        List.mem_cons, List.mem_append]
      exact Or.inr (Or.inr (by simpa [oks] using ih h))

/-- C6: in debug mode no telemetry record is ever dispatched and no
classified summary (`print_pm`, the only caller of the classifier inside
the loop) is ever produced, whatever the reads do; instead the full raw
measurement of every successful read is rendered with `print_debug`. -/
theorem debug_never_dispatches :
    (∀ (logOnly : Bool) (reads : List (Device × ReadResult))
       (fields : List (String × ℕ)) (tags : List (String × String)),
       Event.emit fields tags ∉ (loop_iter true logOnly reads).1)
    ∧ (∀ (logOnly : Bool) (reads : List (Device × ReadResult)) (data : PMSData),
       Event.printPM data ∉ (loop_iter true logOnly reads).1)
    ∧ (∀ (logOnly : Bool) (devReads : List (Device × PMSData))
       (p : Device × PMSData), p ∈ devReads →
       Event.printDebug p.2 ∈ (loop_iter true logOnly (oks devReads)).1) := by
  refine ⟨fun logOnly reads fields tags => ?_, fun logOnly reads data => ?_,
    fun logOnly devReads p hp => ?_⟩
  · simp only [loop_iter, List.mem_cons]
    push_neg
    exact ⟨by simp, emit_not_mem_readDevices_debug logOnly fields tags reads⟩
  · simp only [loop_iter, List.mem_cons]
    push_neg
    exact ⟨by simp, printPM_not_mem_readDevices_debug logOnly data reads⟩
  · simp only [loop_iter, List.mem_cons]
    exact Or.inr (printDebug_mem_readDevices_debug logOnly devReads p hp)

/-- C6 witness: the debug rendering applied to one concrete device/read. -/
theorem debug_never_dispatches_witness :
    Event.printDebug sampleData
      ∈ (loop_iter true false (oks [(sampleDev, sampleData)])).1 :=
  debug_never_dispatches.2.2 false [(sampleDev, sampleData)]
    (sampleDev, sampleData) (by simp)

lemma printPM_not_mem_readDevices_logOnly (data : PMSData)
    (devReads : List (Device × PMSData)) :
    Event.printPM data ∉ (readDevices false true (oks devReads)).1 := by
  induction devReads with
  | nil => simp [oks, readDevices]
  | cons q rest ih =>
    obtain ⟨dev, d⟩ := q
    simp only [oks, List.map_cons, readDevices, deviceEvents,
      List.mem_cons, List.mem_append]
    push_neg
    exact ⟨by simp, by simp, by simpa [oks] using ih⟩

/-- C7: in log-only normal mode each iteration still dispatches the
telemetry record of every device (the same emit events as any normal-mode
iteration) while producing no human summary line at all. -/
theorem logonly_dispatches_without_summary
    (devReads : List (Device × PMSData)) :
    ((loop_iter false true (oks devReads)).1.filter isEmit)
      = devReads.map emitOf
    ∧ ∀ data : PMSData,
        Event.printPM data ∉ (loop_iter false true (oks devReads)).1 := by
  constructor
  · show (Event.ping :: (readDevices false true (oks devReads)).1).filter isEmit = _
    rw [List.filter_cons]
    simpa [isEmit] using filter_isEmit_readDevices true devReads
  · intro data
    simp only [loop_iter, List.mem_cons]
    push_neg
    exact ⟨by simp, printPM_not_mem_readDevices_logOnly data devReads⟩

lemma openSink_not_mem_warnings (path : String) (possible : List SearchResult) :
    Event.openSink path ∉ (possible.filter (fun p => p.dev.isNone)).map
      (fun p => Event.echo (warnMsg p) true) := by
  simp

lemma ready_not_mem_warnings (possible : List SearchResult) :
    Event.ready ∉ (possible.filter (fun p => p.dev.isNone)).map
      (fun p => Event.echo (warnMsg p) true) := by
  simp

/-- C4: when discovery yields zero usable device handles — either no search
results at all, or results none of which carries a device — `main` returns
before opening the telemetry sink, before `wd.ready()`, and without entering
the polling loop; conversely the loop is entered only with a non-empty
device list. -/
theorem no_usable_devices_clean_return (logPath : String)
    (possible : List SearchResult) :
    ((possible = [] ∨ possible.filterMap (fun p => p.dev) = []) →
       (∀ devs, (main_startup logPath possible).2 ≠ StartOutcome.running devs)
       ∧ (∀ path, Event.openSink path ∉ (main_startup logPath possible).1)
       ∧ Event.ready ∉ (main_startup logPath possible).1)
    ∧ (∀ devs, (main_startup logPath possible).2 = StartOutcome.running devs →
       devs ≠ []) := by
  by_cases hP : possible.isEmpty
  · constructor
    · intro _
      refine ⟨fun devs => ?_, fun path => ?_, ?_⟩ <;>
        simp [main_startup, hP]
    · intro devs hEq
      simp [main_startup, hP] at hEq
  · by_cases hD : (possible.filterMap (fun p => p.dev)).isEmpty
    · constructor
      · intro _
        refine ⟨fun devs => ?_, fun path => ?_, ?_⟩ <;>
          simp [main_startup, hP, hD]
      · intro devs hEq
        simp [main_startup, hP, hD] at hEq
    · constructor
      · intro h
        rcases h with h | h
        · exact absurd (by simp [h]) hP
        · exact absurd (by simp [h]) hD
      · intro devs hEq
        simp [main_startup, hP, hD] at hEq
        intro hnil
        rw [← hEq] at hnil
        simp [hnil] at hD

/-- C4 witness: with one concrete failed discovery result the program does
not enter the loop, opens no sink and never signals ready. -/
theorem no_usable_devices_clean_return_witness :
    (∀ devs, (main_startup "measurements.log" [sampleFail]).2
        ≠ StartOutcome.running devs)
    ∧ (∀ path, Event.openSink path
        ∉ (main_startup "measurements.log" [sampleFail]).1)
    ∧ Event.ready ∉ (main_startup "measurements.log" [sampleFail]).1 :=
  (no_usable_devices_clean_return "measurements.log" [sampleFail]).1
    (Or.inr (by simp [sampleFail]))

/-- C8: every discovery result that carries no device produces a warning on
the error stream whose text embeds the description, the port path and the
error message; the warning of every such result is in the startup trace —
one failed port never aborts the reporting of the others. -/
theorem discovery_failures_all_reported (logPath : String)
    (possible : List SearchResult) (p : SearchResult)
    (hp : p ∈ possible) (hdev : p.dev = none) :
    Event.echo (warnMsg p) true ∈ (main_startup logPath possible).1
    ∧ p.desc.data <:+: (warnMsg p).data
    ∧ p.port.data <:+: (warnMsg p).data
    ∧ (pyOptStr p.error).data <:+: (warnMsg p).data := by
  have hP : possible.isEmpty = false := by
    cases possible with
    | nil => cases hp
    | cons a as => rfl
  have hmem : Event.echo (warnMsg p) true
      ∈ (possible.filter (fun q => q.dev.isNone)).map
        (fun q => Event.echo (warnMsg q) true) :=
    List.mem_map_of_mem _ (List.mem_filter.mpr ⟨hp, by simp [hdev]⟩)
  refine ⟨?_, ?_, ?_, ?_⟩
  · by_cases hD : (possible.filterMap (fun q => q.dev)).isEmpty
    · simp only [main_startup, hP, Bool.false_eq_true, if_false, hD, if_true]
      exact List.mem_append_left _ hmem
    · simp only [main_startup, hP, Bool.false_eq_true, if_false, hD, if_true,
        List.append_assoc]
      exact List.mem_append_left _ hmem
  · exact ⟨(Fore.YELLOW ++ "error on ").data,
      (" " ++ p.port ++ ": " ++ pyOptStr p.error ++ Style.RESET_ALL).data,
      by simp [warnMsg, String.data_append]⟩
  · exact ⟨(Fore.YELLOW ++ "error on " ++ p.desc ++ " ").data,
      (": " ++ pyOptStr p.error ++ Style.RESET_ALL).data,
      by simp [warnMsg, String.data_append]⟩
  · exact ⟨(Fore.YELLOW ++ "error on " ++ p.desc ++ " " ++ p.port ++ ": ").data,
      Style.RESET_ALL.data,
      by simp [warnMsg, String.data_append]⟩

/-- C8 witness: the warning of one concrete failed port, reported on the
error stream with the port path inside the message. -/
theorem discovery_failures_all_reported_witness :
    Event.echo (warnMsg sampleFail) true
      ∈ (main_startup "measurements.log" [sampleFail]).1
    ∧ sampleFail.port.data <:+: (warnMsg sampleFail).data :=
  ⟨(discovery_failures_all_reported "measurements.log" [sampleFail] sampleFail
      (by simp) rfl).1,
   (discovery_failures_all_reported "measurements.log" [sampleFail] sampleFail
      (by simp) rfl).2.2.1⟩

/-- C10: `main` opens the telemetry sink and announces its path on the
standard stream whenever at least one usable device exists; the startup
phase never consults the debug flag (the code reads `debug` only inside the
loop body), so this holds in debug mode too — where, additionally, no
record is ever emitted to the opened sink. -/
theorem sink_opened_regardless_of_debug (logPath : String)
    (possible : List SearchResult)
    (h : possible.filterMap (fun p => p.dev) ≠ []) :
    Event.openSink logPath ∈ (main_startup logPath possible).1
    ∧ Event.echo (announceMsg logPath) false ∈ (main_startup logPath possible).1
    ∧ logPath.data <:+: (announceMsg logPath).data
    ∧ (∀ (logOnly : Bool) (reads : List (Device × ReadResult))
        (fields : List (String × ℕ)) (tags : List (String × String)),
        Event.emit fields tags ∉ (loop_iter true logOnly reads).1) := by
  have hP : possible.isEmpty = false := by
    cases possible with
    | nil => simp at h
    | cons a as => rfl
  have hD : (possible.filterMap (fun p => p.dev)).isEmpty = false := by
    simpa [List.isEmpty_iff] using h
  refine ⟨?_, ?_, ?_, fun logOnly reads fields tags => ?_⟩
  · simp [main_startup, hP, hD]
  · simp [main_startup, hP, hD]
  · exact ⟨(Fore.BLUE ++ "writing influxdb measurement "
        ++ InfluxdbLogger.MEASUREMENT ++ " to ").data,
      Style.RESET_ALL.data, by simp [announceMsg, String.data_append]⟩
  · simp only [loop_iter, List.mem_cons]
    push_neg
    exact ⟨by simp, emit_not_mem_readDevices_debug logOnly fields tags reads⟩

/-- C10 witness: with one concrete usable device the sink is opened and
announced, and a concrete debug iteration emits nothing. -/
theorem sink_opened_regardless_of_debug_witness :
    Event.openSink "measurements.log"
      ∈ (main_startup "measurements.log" [sampleOk]).1
    ∧ Event.echo (announceMsg "measurements.log") false
      ∈ (main_startup "measurements.log" [sampleOk]).1
    ∧ Event.emit (pmFields sampleData) [("type", "PMS7003"), ("id", sampleDev.id)]
      ∉ (loop_iter true false (oks [(sampleDev, sampleData)])).1 :=
  ⟨(sink_opened_regardless_of_debug "measurements.log" [sampleOk]
      (by simp [sampleOk])).1,
   (sink_opened_regardless_of_debug "measurements.log" [sampleOk]
      (by simp [sampleOk])).2.1,
   (sink_opened_regardless_of_debug "measurements.log" [sampleOk]
      (by simp [sampleOk])).2.2.2 false (oks [(sampleDev, sampleData)]) _ _⟩

/-- C2 witness: one concrete iteration whose only device read raises still
pings first, and nothing else in the iteration pings. -/
theorem ping_first_and_once_per_iteration_witness :
    (loop_iter false false [(sampleDev, ReadResult.error "read failed")]).1
      = Event.ping ::
        (readDevices false false [(sampleDev, ReadResult.error "read failed")]).1
    ∧ Event.ping
      ∉ (readDevices false false [(sampleDev, ReadResult.error "read failed")]).1 :=
  ping_first_and_once_per_iteration false false
    [(sampleDev, ReadResult.error "read failed")]

/-- C3 witness: one concrete normal-mode iteration with one device yields
exactly that device's record, and the sample measurement's field keys are
the six PM attributes. -/
theorem normal_mode_one_record_per_device_witness :
    ((loop_iter false false (oks [(sampleDev, sampleData)])).1.filter isEmit)
      = [(sampleDev, sampleData)].map emitOf
    ∧ (pmFields sampleData).map Prod.fst
      = ["pm1_0_cf1", "pm1_0_atm", "pm2_5_cf1", "pm2_5_atm",
         "pm10_0_cf1", "pm10_0_atm"] :=
  ⟨normal_mode_one_record_per_device.1 false [(sampleDev, sampleData)],
   normal_mode_one_record_per_device.2.1 sampleData⟩

/-- C7 witness: one concrete log-only iteration dispatches its record and
prints no summary. -/
theorem logonly_dispatches_without_summary_witness :
    ((loop_iter false true (oks [(sampleDev, sampleData)])).1.filter isEmit)
      = [(sampleDev, sampleData)].map emitOf
    ∧ Event.printPM sampleData
      ∉ (loop_iter false true (oks [(sampleDev, sampleData)])).1 :=
  ⟨(logonly_dispatches_without_summary [(sampleDev, sampleData)]).1,
   (logonly_dispatches_without_summary [(sampleDev, sampleData)]).2 sampleData⟩
